import Mathlib

/-!
Shallow embedding of the essay-grading pipeline of `src/app.py`
(an AI essay grading application).

The embedded functions keep the names of the Python functions they
translate: `get_gemini_assessment` (src/app.py lines 378-468),
`process_and_submit_essay` (lines 471-546) and `save_essay_submission`
(lines 266-298).  External collaborators are passed in as explicit
parameters:

* `gen` models `gemini_model.generate_content` (plus the `.text`
  accessor); it is indexed by the invocation count inside one call of
  `get_gemini_assessment`, takes the prompt, and either returns the
  response text or raises (`Except.error`).
* `parse` models `json.loads`; `none` models a raised
  `json.JSONDecodeError`.  The Python values produced by `json.loads`
  are modelled by `JVal` (JSON null and Python `None` are conflated,
  exactly as `json.loads` conflates them; numbers are modelled as
  integers, which is enough for the claims since no arithmetic is
  performed on them).
* `md` models `markdownify`; `Except.error` models a raised exception.
* `db : Bool` models whether the database connection and the INSERT in
  `save_essay_submission` succeed.

Python string primitives (`strip`, `find`, `rfind`, slicing with
negative indices) are embedded over `List Char` with Python's exact
clamping semantics.
-/

set_option maxRecDepth 8192

/-! ## Python string primitives -/

/-- Python whitespace for `str.strip` (the ASCII part; the texts handled
here contain no other whitespace). -/
def pyWs (c : Char) : Bool :=
  c == ' ' || c == '\t' || c == '\n' || c == '\r' || c == '\x0b' || c == '\x0c'

/-- Python `s.strip()`: remove leading and trailing whitespace. -/
def pyStrip (l : List Char) : List Char :=
  ((l.dropWhile pyWs).reverse.dropWhile pyWs).reverse

/-- First index where `p` holds, counted from the front (helper for
Python `find` and `rfind`). -/
def pyFindAux (p : Char → Bool) : List Char → Option Nat
  | [] => none
  | a :: l => if p a then some 0 else (pyFindAux p l).map (· + 1)

/-- Python `s.find(c)`: index of the first occurrence (`none` models -1). -/
def pyFind (l : List Char) (c : Char) : Option Nat :=
  pyFindAux (fun x => x == c) l

/-- Python `s.rfind(c)`: index of the last occurrence (`none` models -1). -/
def pyRfind (l : List Char) (c : Char) : Option Nat :=
  match pyFindAux (fun x => x == c) l.reverse with
  | none => none
  | some k => some (l.length - 1 - k)

/-- Python `s[a:-b]` for `a, b ≥ 0`: characters with index in
`[a, max 0 (len - b))`; `Nat` subtraction gives exactly Python's
clamping. -/
def pySliceDrop (l : List Char) (a b : Nat) : List Char :=
  (l.take (l.length - b)).drop a

/-- Python `s[a:b]` for `a, b ≥ 0`. -/
def pySliceTo (l : List Char) (a b : Nat) : List Char :=
  (l.take b).drop a

/-! ## Python JSON values -/

/-- Values produced by `json.loads` (and the dictionaries the code
builds itself). -/
inductive JVal where
  | jnull
  | jbool (b : Bool)
  | jnum (n : Int)
  | jstr (s : String)
  | jarr (elems : List JVal)
  | jobj (fields : List (String × JVal))

/-- Python `k in d` for a dict. -/
def jhasKey (fields : List (String × JVal)) (k : String) : Bool :=
  fields.any (fun p => p.1 == k)

/-- Python `d.get(k)`: `none` models the default `None` for a missing
key. -/
def jget (fields : List (String × JVal)) (k : String) : Option JVal :=
  (fields.find? (fun p => p.1 == k)).map (fun p => p.2)

/-- Line 287 of src/app.py: `isinstance(overall_rating, (int, float))`.
`none` models Python `None`.  Python `bool` is a subclass of `int`, so
a boolean passes this check. -/
def isinstance_int_float : Option JVal → Bool
  | some (JVal.jnum _) => true
  | some (JVal.jbool _) => true
  | _ => false

/-- A JSON number in the JSON sense (booleans are not numbers). -/
def isJsonNumber : JVal → Bool
  | JVal.jnum _ => true
  | _ => false

/-! ## The rubric prompt (f-string at src/app.py lines 379-413)

The template is split at the two interpolation points `{title}` and
`{essay_markdown}`; the three literal parts are transcribed verbatim
(braces written with \x7b/\x7d escapes). -/

def promptA : String :=
  "\n    You are an Excellent Writter and Copywrite Expert which has 20 years of experience in writing essays. You are specialized in evaluating student essays. You given a Title and Essay in Markdown format below, Asses Students Essay in Right manner.\n    The essay title is: \""

def promptB : String :=
  "\"\n    The essay content (in Markdown) is:\n    ---\n    "

def promptC : String :=
  "\n    ---\n    Please assess the essay based on the following five criteria. For each, give a score from 0 to 100 (0 = very poor, 100 = excellent) and a brief justification:\n\n    1. Grammar (20%): spelling, punctuation, sentence structure, mechanics of Writting. \n    2. Relevancy and Cohesion with Title (25%): how well the content stays on topic mentioned  and flows logically relative to the title.  \n    3. Clarity and Content Development with respect to Title (25%): depth of ideas present in content, supporting evidence, originality, and clarity with relate to the title.  \n    4. Sentence Formation (20%): variety and complexity of sentence structures, conciseness. \n    5. Formatting (10%): appropriate Markdown usage (headings, lists, blockquotes) and overall readability and Presentation.\n\n    After scoring, also provide:\n    - Overall Word Count  \n    - Overall Feedback: a concise summary (4 to 6 sentences) of the essays main strengths and areas need to improve. \n    - Overall Rating: a single number from 0 to 100, computed by applying the above weights  \n\n    Output **only** the following JSON object (no extra text), with all strings properly escaped:\n\n    \x7b\n      \"criteria_scores\": \x7b\n        \"grammar\": \x7b\"score\": <int_0_to_100>, \"justification\": \"<string>\"\x7d,\n        \"relevancy_and_cohesion\": \x7b\"score\": <int_0_to_100>, \"justification\": \"<string>\"\x7d,\n        \"clarity_and_content_development_with_respect_to_title\": \x7b\"score\": <int_0_to_100>, \"justification\": \"<string>\"\x7d,\n        \"sentence_formation\": \x7b\"score\": <int_0_to_100>, \"justification\": \"<string>\"\x7d,\n        \"formatting\": \x7b\"score\": <int_0_to_100>, \"justification\": \"<string>\"\x7d\n      \x7d,\n      \"word_count\": <int_word_count>,\n      \"overall_feedback\": \"<string>\",\n      \"overall_rating\": <int_0_to_100>\n    \x7d\n    "

/-- The prompt built at src/app.py lines 379-413: a pure function of the
title and the normalized (Markdown) content. -/
def buildPrompt (title essay_markdown : String) : String :=
  promptA ++ title ++ promptB ++ essay_markdown ++ promptC

/-- The five rubric criteria with their percentage weights, as they
appear in the prompt. -/
def rubricCriteria : List (String × Nat) :=
  [("Grammar", 20),
   ("Relevancy and Cohesion with Title", 25),
   ("Clarity and Content Development with respect to Title", 25),
   ("Sentence Formation", 20),
   ("Formatting", 10)]

/-- The text `name (w%)` with which a criterion appears in the prompt. -/
def critNeedle (p : String × Nat) : String :=
  p.1 ++ " (" ++ toString p.2 ++ "%)"

/-- Substring test on character lists (decidable, used to state that the
prompt embeds the rubric). -/
def listContains (needle : List Char) : List Char → Bool
  | [] => needle.isEmpty
  | a :: tl => needle.isPrefixOf (a :: tl) || listContains needle tl

/-! ## AssessmentClient: `get_gemini_assessment` (src/app.py 378-468) -/

/-- The parse-failure dictionary built at line 442 (the code attaches the
current, possibly fence-stripped, `response_text` as `raw_response`). -/
def errFormatDict (raw : List Char) : JVal :=
  JVal.jobj [("error", JVal.jstr "AI feedback format issue."),
             ("raw_response", JVal.jstr (String.mk raw))]

/-- The `json.JSONDecodeError` dictionary built at line 451.  In Python
the message also embeds the exception text; no claim inspects it, so the
fixed prefix stands for it. -/
def errDecodeDict (raw : List Char) : JVal :=
  JVal.jobj [("error", JVal.jstr "AI feedback parsing error."),
             ("raw_response", JVal.jstr (String.mk raw))]

/-- Lines 434-451: find the first `\x7b` and the last `\x7d`, slice,
and parse.  `json_end_index` is `rfind + 1`, hence never -1: the
`else` branch of line 436 is taken exactly when `find` returns -1. -/
def extractCore (parse : List Char → Option JVal) (t : List Char) : JVal :=
  match pyFind t '{' with
  | some i =>
      let jend := match pyRfind t '}' with
        | some k => k + 1
        | none => 0
      match parse (pySliceTo t i jend) with
      | some v => v
      | none => errDecodeDict t
  | none => errFormatDict t

/-- Lines 429-451: strip one fenced-code wrapper if the stripped text
starts with a fence marker (lines 430-433 mutate `response_text` in
place, so the error dictionaries attach the stripped text), then locate
and parse a JSON object. -/
def extractJson (parse : List Char → Option JVal) (response_text : List Char) : JVal :=
  if ("```json".data).isPrefixOf (pyStrip response_text) then
    extractCore parse (pyStrip (pySliceDrop (pyStrip response_text) 7 3))
  else if ("```".data).isPrefixOf (pyStrip response_text) then
    extractCore parse (pyStrip (pySliceDrop (pyStrip response_text) 3 3))
  else
    extractCore parse response_text

/-- Result of one call of `get_gemini_assessment`: the returned value
(`Except.error` models an exception escaping the function) and the
number of `gemini_model.generate_content` invocations made. -/
structure AiOut where
  result : Except String JVal
  calls : Nat

/-- src/app.py 378-468.  The function invokes
`gemini_model.generate_content` at lines 414 and 418 *before* the
`try` of line 424, so an exception raised by either of those calls
escapes the function; only the third invocation (line 425) is guarded.
When the third call raises, `response` is still `None` (line 421), so
the handler at line 453 returns the dictionary with
`raw_response = "Could not get raw response due to an early error."`. -/
def get_gemini_assessment (gen : Nat → String → Except String String)
    (parse : List Char → Option JVal) (title essay_markdown : String) : AiOut :=
  let prompt := buildPrompt title essay_markdown
  match gen 0 prompt with
  | Except.error e => ⟨Except.error e, 1⟩
  | Except.ok _ =>
    match gen 1 prompt with
    | Except.error e => ⟨Except.error e, 2⟩
    | Except.ok _ =>
      match gen 2 prompt with
      | Except.error e =>
          ⟨Except.ok (JVal.jobj
            [("error", JVal.jstr e),
             ("raw_response",
              JVal.jstr "Could not get raw response due to an early error.")]), 3⟩
      | Except.ok t => ⟨Except.ok (extractJson parse t.data), 3⟩

/-! ## EssayStore: `save_essay_submission` (src/app.py 266-298) -/

/-- A row of the `essays` table as inserted at line 288 (the feedback is
kept as the dictionary passed through `json.dumps`; the id and the
timestamp are immaterial to the claims). -/
structure DbRow where
  student : Nat
  title : String
  content : String
  feedback : JVal
  rating : Option JVal

/-- src/app.py 266-298.  Returns the Bool the Python function returns
(`False` on a missing user id, a failed connection, or a raised insert,
all caught at line 292) together with the row actually inserted, if
any.  Line 287 filters the rating through
`isinstance(overall_rating, (int, float))`. -/
def save_essay_submission (db : Bool) (student_user_id : Option Nat)
    (title content_markdown : String) (ai_feedback : JVal)
    (overall_rating : Option JVal) : Bool × Option DbRow :=
  match student_user_id with
  | none => (false, none)
  | some sid =>
      if db then
        (true, some ⟨sid, title, content_markdown, ai_feedback,
          if isinstance_int_float overall_rating then overall_rating else none⟩)
      else (false, none)

/-! ## GradingOrchestrator: `process_and_submit_essay` (src/app.py 471-546) -/

/-- Terminal state of one run: the three early returns (lines 475, 478,
492), normal completion (state reset and rerun, lines 540-546), or an
uncaught exception escaping the function. -/
inductive POutcome where
  | noUser
  | noTitle
  | noContent
  | completed
  | raised (e : String)
deriving DecidableEq

/-- One invocation of `save_essay_submission` as performed at line 535. -/
structure WriteCall where
  student : Nat
  title : String
  content : String
  feedback : JVal
  rating : Option JVal

/-- Observable result of one run of `process_and_submit_essay`:
terminal state, number of `generate_content` invocations, the
`save_essay_submission` calls made, the rows actually inserted, and
whether the success banner of lines 517-518 was shown. -/
structure RunOut where
  outcome : POutcome
  calls : Nat
  writes : List WriteCall
  rows : List DbRow
  successShown : Bool

/-- Line 485 wrapped in try/except (lines 484-489): `markdownify`
output, or the fallback string when it raises. -/
def mdResult (md : String → Except String String) (html : String) : String :=
  match md html with
  | Except.ok m => m
  | Except.error _ => "<i>Error converting content.</i>"

/-- Line 483: content is submitted only when it is truthy (non-empty),
not the literal `"<p><br></p>"`, and does not strip to `"<p></p>"`. -/
def contentNonEmpty (c : String) : Bool :=
  c != "" && c != "<p><br></p>" && (pyStrip c.data != "<p></p>".data)

/-- src/app.py 471-546.  The title check (line 476) precedes the content
check (line 483); both precede the model call (line 496).  The
assessment result is serialized and written at line 535; the Bool
returned by `save_essay_submission` is discarded there.  `overall_rating`
is set (line 515) only when the feedback dictionary has no "error" key;
the success banner (lines 517-518) is shown in exactly that case.  A
non-dictionary feedback value takes the branch at lines 524-528. -/
def process_and_submit_essay (gen : Nat → String → Except String String)
    (parse : List Char → Option JVal) (md : String → Except String String)
    (db : Bool) (student_user_id : Option Nat)
    (title essay_content_html : String) : RunOut :=
  match student_user_id with
  | none => ⟨POutcome.noUser, 0, [], [], false⟩
  | some sid =>
    if pyStrip title.data = [] then ⟨POutcome.noTitle, 0, [], [], false⟩
    else if contentNonEmpty essay_content_html then
      let essay_markdown := mdResult md essay_content_html
      let ai := get_gemini_assessment gen parse title essay_markdown
      match ai.result with
      | Except.error e => ⟨POutcome.raised e, ai.calls, [], [], false⟩
      | Except.ok fb =>
        match fb with
        | JVal.jobj fields =>
            let overall_rating :=
              if jhasKey fields "error" then none else jget fields "overall_rating"
            let sv := save_essay_submission db (some sid) title essay_markdown fb overall_rating
            ⟨POutcome.completed, ai.calls,
             [⟨sid, title, essay_markdown, fb, overall_rating⟩],
             (match sv.2 with | some r => [r] | none => []),
             !(jhasKey fields "error")⟩
        | _ =>
            let errfb := JVal.jobj
              [("error", JVal.jstr "AI feedback data is not a valid structure or was None.")]
            let sv := save_essay_submission db (some sid) title essay_markdown errfb none
            ⟨POutcome.completed, ai.calls,
             [⟨sid, title, essay_markdown, errfb, none⟩],
             (match sv.2 with | some r => [r] | none => []),
             false⟩
    else ⟨POutcome.noContent, 0, [], [], false⟩

/-! ## Derived notions and concrete instantiations used by the theorems -/

/-- The rating the claims predict for a persisted record, given the
feedback value: the `overall_rating` entry exactly when the dictionary
has no "error" key and the value passes the `isinstance` check of
line 287; `none` (SQL NULL) otherwise. -/
def persistedRatingOf : JVal → Option JVal
  | JVal.jobj fields =>
      if jhasKey fields "error" then none
      else
        match jget fields "overall_rating" with
        | some v => if isinstance_int_float (some v) then some v else none
        | none => none
  | _ => none

/-- A response body wrapped in a json-tagged fenced-code block. -/
def fenceJson (b : List Char) : List Char :=
  "```json".data ++ b ++ "```".data

/-- A response body wrapped in an untagged fenced-code block. -/
def fencePlain (b : List Char) : List Char :=
  "```".data ++ b ++ "```".data

/-- The backtick character (obtained from a string literal). -/
def btick : Char := "`".data.headD ' '

/-- A model oracle that raises on every invocation. -/
def genFail (msg : String) : Nat → String → Except String String :=
  fun _ _ => Except.error msg

/-- A model oracle that returns the same text on every invocation. -/
def genText (t : String) : Nat → String → Except String String :=
  fun _ _ => Except.ok t

/-- A `json.loads` oracle that fails on every input (as `json.loads`
does on any non-JSON slice). -/
def parseNone : List Char → Option JVal := fun _ => none

/-- A `markdownify` oracle that returns its input unchanged. -/
def mdId : String → Except String String := fun s => Except.ok s

/-- A well-formed model response carrying an integer rating. -/
def jsonR78 : String := "\x7b\"overall_rating\": 78\x7d"

/-- The dictionary `json.loads` produces from `jsonR78`. -/
def ratingDict : JVal := JVal.jobj [("overall_rating", JVal.jnum 78)]

/-- A `json.loads` oracle defined on exactly the text of `jsonR78`. -/
def parseRating : List Char → Option JVal :=
  fun l => if l = jsonR78.data then some ratingDict else none

/-- A model response whose `overall_rating` is the JSON boolean `true`. -/
def jsonBoolRating : String := "\x7b\"overall_rating\": true\x7d"

/-- A `json.loads` oracle defined on exactly the text of
`jsonBoolRating`. -/
def parseBoolRating : List Char → Option JVal :=
  fun l =>
    if l = jsonBoolRating.data then some (JVal.jobj [("overall_rating", JVal.jbool true)])
    else none

/-- A well-formed model response with feedback but no rating field. -/
def jsonNoRating : String := "\x7b\"overall_feedback\": \"Nice work\"\x7d"

/-- The fields `json.loads` produces from `jsonNoRating`. -/
def fieldsNoRating : List (String × JVal) := [("overall_feedback", JVal.jstr "Nice work")]

/-- A `json.loads` oracle defined on exactly the text of
`jsonNoRating`. -/
def parseNoRating : List Char → Option JVal :=
  fun l => if l = jsonNoRating.data then some (JVal.jobj fieldsNoRating) else none

/-- A `json.loads` oracle for the one-digit object used in the fenced
extraction witness. -/
def parseDigit : List Char → Option JVal :=
  fun l => if l = "\x7b1\x7d".data then some (JVal.jnum 1) else none

/-! ## Helper lemmas -/

theorem dropWhile_cons_false {p : Char → Bool} {a : Char} {l : List Char}
    (h : p a = false) : (a :: l).dropWhile p = a :: l := by
  simp [List.dropWhile_cons, h]

theorem pyStrip_id_of {l : List Char} (h1 : l.dropWhile pyWs = l)
    (h2 : l.reverse.dropWhile pyWs = l.reverse) : pyStrip l = l := by
  unfold pyStrip
  rw [h1, h2, List.reverse_reverse]

theorem pyStrip_fenceJson (b : List Char) : pyStrip (fenceJson b) = fenceJson b := by
  apply pyStrip_id_of
  · exact dropWhile_cons_false (a := btick)
      (l := "``json".data ++ (b ++ "```".data)) (by decide)
  · have hrev : (fenceJson b).reverse
        = btick :: (btick :: btick :: ("```json".data ++ b).reverse) := by
      unfold fenceJson
      rw [List.reverse_append]
      rfl
    rw [hrev]
    exact dropWhile_cons_false (by decide)

theorem pyStrip_fencePlain (b : List Char) : pyStrip (fencePlain b) = fencePlain b := by
  apply pyStrip_id_of
  · exact dropWhile_cons_false (a := btick)
      (l := "``".data ++ (b ++ "```".data)) (by decide)
  · have hrev : (fencePlain b).reverse
        = btick :: (btick :: btick :: ("```".data ++ b).reverse) := by
      unfold fencePlain
      rw [List.reverse_append]
      rfl
    rw [hrev]
    exact dropWhile_cons_false (by decide)

theorem sliceDrop_fenceJson (b : List Char) : pySliceDrop (fenceJson b) 7 3 = b := by
  unfold pySliceDrop fenceJson
  have hlen : (("```json".data ++ b) ++ "```".data).length - 3
      = ("```json".data ++ b).length := by
    simp [List.length_append]
  rw [List.append_assoc, ← List.append_assoc, hlen, List.take_left]
  have h7 : ("```json".data).length = 7 := rfl
  rw [← h7, List.drop_left]

theorem sliceDrop_fencePlain (b : List Char) : pySliceDrop (fencePlain b) 3 3 = b := by
  unfold pySliceDrop fencePlain
  have hlen : (("```".data ++ b) ++ "```".data).length - 3
      = ("```".data ++ b).length := by
    simp [List.length_append]
  rw [List.append_assoc, ← List.append_assoc, hlen, List.take_left]
  have h3 : ("```".data).length = 3 := rfl
  rw [← h3, List.drop_left]

theorem isPrefixOf_append_self (x y : List Char) : x.isPrefixOf (x ++ y) = true := by
  induction x with
  | nil => simp [List.isPrefixOf]
  | cons a as ih => simp [List.isPrefixOf, ih]

theorem isPrefixOf_of_append (x y l : List Char)
    (h : (x ++ y).isPrefixOf l = true) : x.isPrefixOf l = true := by
  induction x generalizing l with
  | nil => simp [List.isPrefixOf]
  | cons a as ih =>
    cases l with
    | nil => simp [List.isPrefixOf] at h
    | cons b bs =>
      simp only [List.cons_append, List.isPrefixOf, Bool.and_eq_true] at h ⊢
      exact ⟨h.1, ih bs h.2⟩

theorem pyFindAux_eq_none {p : Char → Bool} {l : List Char}
    (h : ∀ x ∈ l, p x = false) : pyFindAux p l = none := by
  induction l with
  | nil => rfl
  | cons a as ih =>
    simp [pyFindAux, h a (by simp), ih (fun x hx => h x (by simp [hx]))]

theorem pyFindAux_isSome {p : Char → Bool} {l : List Char}
    (h : ∃ x ∈ l, p x = true) : (pyFindAux p l).isSome = true := by
  induction l with
  | nil => simp at h
  | cons a as ih =>
    by_cases ha : p a = true
    · simp [pyFindAux, ha]
    · have hex : ∃ x ∈ as, p x = true := by
        rcases h with ⟨x, hx, hpx⟩
        rcases List.mem_cons.mp hx with h1 | h1
        · exact absurd (h1 ▸ hpx) ha
        · exact ⟨x, h1, hpx⟩
      have ha' : p a = false := by revert ha; cases (p a) <;> simp
      simp [pyFindAux, ha', Option.isSome_map', ih hex]

theorem mem_of_mem_dropWhile {p : Char → Bool} {x : Char} {l : List Char}
    (h : x ∈ l.dropWhile p) : x ∈ l := by
  induction l with
  | nil => simp at h
  | cons a as ih =>
    by_cases hp : p a = true
    · rw [List.dropWhile_cons, if_pos hp] at h
      exact List.mem_cons_of_mem _ (ih h)
    · rw [List.dropWhile_cons, if_neg hp] at h
      exact h

theorem mem_of_mem_pyStrip {x : Char} {l : List Char} (h : x ∈ pyStrip l) : x ∈ l := by
  unfold pyStrip at h
  rw [List.mem_reverse] at h
  have h2 := mem_of_mem_dropWhile h
  rw [List.mem_reverse] at h2
  exact mem_of_mem_dropWhile h2

theorem pyFind_eq_none_of_not_mem {c : Char} {l : List Char}
    (h : c ∉ l) : pyFind l c = none := by
  unfold pyFind
  apply pyFindAux_eq_none
  intro x hx
  exact beq_eq_false_iff_ne.mpr (fun he => h (he ▸ hx))

theorem pyRfind_eq_none_of_not_mem {c : Char} {l : List Char}
    (h : c ∉ l) : pyRfind l c = none := by
  unfold pyRfind
  rw [pyFindAux_eq_none]
  intro x hx
  rw [List.mem_reverse] at hx
  exact beq_eq_false_iff_ne.mpr (fun he => h (he ▸ hx))

theorem pyFind_isSome_of_mem {c : Char} {l : List Char}
    (h : c ∈ l) : ∃ i, pyFind l c = some i := by
  have := pyFindAux_isSome (p := fun x => x == c) (l := l) ⟨c, h, by simp⟩
  exact Option.isSome_iff_exists.mp this

theorem listContains_append_left (n pre h : List Char)
    (hc : listContains n h = true) : listContains n (pre ++ h) = true := by
  induction pre with
  | nil => simpa using hc
  | cons a as ih =>
    show (n.isPrefixOf (a :: (as ++ h)) || listContains n (as ++ h)) = true
    rw [ih]
    simp

theorem extractJson_fenceJson (parse : List Char → Option JVal) (b : List Char) :
    extractJson parse (fenceJson b) = extractCore parse (pyStrip b) := by
  unfold extractJson
  rw [pyStrip_fenceJson]
  have hpre : ("```json".data).isPrefixOf (fenceJson b) = true := by
    unfold fenceJson
    rw [List.append_assoc]
    exact isPrefixOf_append_self _ _
  rw [if_pos hpre, sliceDrop_fenceJson]

theorem extractJson_fencePlain (parse : List Char → Option JVal) (b : List Char)
    (hno : ("```json".data).isPrefixOf (fencePlain b) = false) :
    extractJson parse (fencePlain b) = extractCore parse (pyStrip b) := by
  unfold extractJson
  rw [pyStrip_fencePlain]
  rw [if_neg (by simp [hno]), if_pos ?hp, sliceDrop_fencePlain]
  case hp =>
    unfold fencePlain
    rw [List.append_assoc]
    exact isPrefixOf_append_self _ _

/-! ## Claim theorems -/

/-- C1: the claim says a failing model invocation yields a structured
error result and the essay is still persisted.  In the code the first
`generate_content` call (line 414) sits before the `try` of line 424,
so when the model invocation raises, the exception escapes
`get_gemini_assessment`, `process_and_submit_essay` aborts, and no
store write happens: the essay is lost. -/
theorem C1_model_invocation_failure_escapes :
    (get_gemini_assessment (genFail "network unreachable") parseNone "Climate Change"
        "Global warming is a serious issue.").result = Except.error "network unreachable"
    ∧ (process_and_submit_essay (genFail "network unreachable") parseNone mdId true (some 7)
        "Climate Change" "<p>Global warming is a serious issue.</p>").outcome
        = POutcome.raised "network unreachable"
    ∧ (process_and_submit_essay (genFail "network unreachable") parseNone mdId true (some 7)
        "Climate Change" "<p>Global warming is a serious issue.</p>").writes = []
    ∧ (process_and_submit_essay (genFail "network unreachable") parseNone mdId true (some 7)
        "Climate Change" "<p>Global warming is a serious issue.</p>").rows = [] :=
  ⟨rfl, rfl, rfl, rfl⟩

/-- C2: the claim says every run with non-empty trimmed title and
non-empty content performs exactly one store write.  With such inputs
and a raising model oracle the run aborts with the escaped exception
before line 535, so zero `save_essay_submission` calls occur. -/
theorem C2_nonempty_inputs_zero_writes_on_raise :
    pyStrip "My First Essay".data ≠ []
    ∧ contentNonEmpty "<p>Some essay text.</p>" = true
    ∧ (process_and_submit_essay (genFail "network timeout") parseNone mdId true (some 1)
        "My First Essay" "<p>Some essay text.</p>").writes = []
    ∧ (process_and_submit_essay (genFail "network timeout") parseNone mdId true (some 1)
        "My First Essay" "<p>Some essay text.</p>").outcome = POutcome.raised "network timeout" :=
  ⟨by decide, by decide, rfl, rfl⟩

/-- C3: the claim says a failed store write is reported to the caller
as a distinct overall-operation failure.  `save_essay_submission` does
return `false` on failure, but line 535 discards that Bool: the run
with a failing store completes with the same outcome as the successful
run, the success banner (shown at line 517, before the write) stays,
and no row was inserted. -/
theorem C3_store_write_failure_invisible :
    (process_and_submit_essay (genText jsonR78) parseRating mdId false (some 1) "T"
        "<p>Body</p>").outcome = POutcome.completed
    ∧ (process_and_submit_essay (genText jsonR78) parseRating mdId false (some 1) "T"
        "<p>Body</p>").outcome
      = (process_and_submit_essay (genText jsonR78) parseRating mdId true (some 1) "T"
        "<p>Body</p>").outcome
    ∧ (process_and_submit_essay (genText jsonR78) parseRating mdId false (some 1) "T"
        "<p>Body</p>").successShown = true
    ∧ (process_and_submit_essay (genText jsonR78) parseRating mdId false (some 1) "T"
        "<p>Body</p>").rows.length = 0
    ∧ (process_and_submit_essay (genText jsonR78) parseRating mdId true (some 1) "T"
        "<p>Body</p>").rows.length = 1
    ∧ (save_essay_submission false (some 1) "T" "<p>Body</p>" ratingDict
        (some (JVal.jnum 78))).1 = false :=
  ⟨rfl, rfl, rfl, rfl, rfl, rfl⟩

/-- C5: the claim says each run invokes the generative model exactly
once.  On any run that reaches the model, `get_gemini_assessment`
invokes `gemini_model.generate_content` three times (lines 414, 418
and 425). -/
theorem C5_three_invocations_per_run :
    (process_and_submit_essay (genText "no json here") parseNone mdId true (some 1) "T"
        "<p>Essay body</p>").calls = 3
    ∧ (get_gemini_assessment (genText "no json here") parseNone "T" "<p>Essay body</p>").calls = 3 :=
  ⟨rfl, rfl⟩

/-- C4 counterexample: the claim says whitespace-only content is
rejected before any model call with zero writes.  Content `" "` is
truthy, differs from `"<p><br></p>"`, and strips to `""` (not
`"<p></p>"`), so line 483 accepts it: the model is invoked and a write
occurs. -/
theorem C4_cex_whitespace_content_accepted :
    (process_and_submit_essay (genText "no json here") parseNone mdId true (some 1) "T" " ").calls = 3
    ∧ (process_and_submit_essay (genText "no json here") parseNone mdId true (some 1) "T" " ").writes.length = 1
    ∧ (process_and_submit_essay (genText "no json here") parseNone mdId true (some 1) "T" " ").outcome
        = POutcome.completed :=
  ⟨rfl, rfl, rfl⟩

/-- C4 (amended): a submission whose trimmed title is empty, or whose
content is the empty string, exactly `"<p><br></p>"`, or strips to
`"<p></p>"`, is rejected before any model call and performs zero store
writes. -/
theorem C4_empty_rejected_no_side_effects
    (gen : Nat → String → Except String String) (parse : List Char → Option JVal)
    (md : String → Except String String) (db : Bool) (sid : Nat) (title content : String)
    (h : pyStrip title.data = [] ∨ content = "" ∨ content = "<p><br></p>"
         ∨ pyStrip content.data = "<p></p>".data) :
    (process_and_submit_essay gen parse md db (some sid) title content).calls = 0
    ∧ (process_and_submit_essay gen parse md db (some sid) title content).writes = [] := by
  by_cases ht : pyStrip title.data = []
  · simp only [process_and_submit_essay]
    rw [if_pos ht]
    exact ⟨rfl, rfl⟩
  · have hc : contentNonEmpty content = false := by
      rcases h with h | h | h | h
      · exact absurd h ht
      · subst h; decide
      · subst h; decide
      · simp [contentNonEmpty, h]
    simp only [process_and_submit_essay]
    rw [if_neg ht, if_neg (by simp [hc])]
    exact ⟨rfl, rfl⟩

/-- C4 witness: a whitespace-only title is rejected with zero model
calls and zero writes. -/
theorem C4_empty_rejected_no_side_effects_witness :
    (pyStrip "   ".data = [] ∨ ("<p>Body</p>" : String) = ""
      ∨ ("<p>Body</p>" : String) = "<p><br></p>"
      ∨ pyStrip "<p>Body</p>".data = "<p></p>".data)
    ∧ (process_and_submit_essay (genText "x") parseNone mdId true (some 1) "   "
        "<p>Body</p>").calls = 0
    ∧ (process_and_submit_essay (genText "x") parseNone mdId true (some 1) "   "
        "<p>Body</p>").writes = [] :=
  ⟨Or.inl (by decide),
   (C4_empty_rejected_no_side_effects (genText "x") parseNone mdId true 1 "   "
     "<p>Body</p>" (Or.inl (by decide))).1,
   (C4_empty_rejected_no_side_effects (genText "x") parseNone mdId true 1 "   "
     "<p>Body</p>" (Or.inl (by decide))).2⟩

/-- C6 counterexample: the claim says a non-numeric `overall_rating`
persists as null.  A JSON boolean is not a JSON number, yet it passes
`isinstance(overall_rating, (int, float))` (Python `bool` subclasses
`int`), so a response with `overall_rating: true` and no error key is
persisted with rating `true`, not null. -/
theorem C6_cex_boolean_rating_persisted :
    (process_and_submit_essay (genText jsonBoolRating) parseBoolRating mdId true (some 1) "T"
        "<p>Body</p>").rows.map DbRow.rating = [some (JVal.jbool true)]
    ∧ isJsonNumber (JVal.jbool true) = false
    ∧ jhasKey [("overall_rating", JVal.jbool true)] "error" = false :=
  ⟨rfl, rfl, rfl⟩

/-- C6 (amended): for every run that reaches persistence with a
successful store write, the persisted rating equals the parsed
`overall_rating` value exactly when the feedback dictionary has no
"error" key and the value passes the `isinstance(int, float)` check of
line 287 — which also accepts JSON booleans, since Python `bool`
subclasses `int`; in every other case (error result, missing key,
non-dictionary feedback, or a value that fails the check) the persisted
rating is null. -/
theorem C6_persisted_rating
    (gen : Nat → String → Except String String) (parse : List Char → Option JVal)
    (md : String → Except String String) (sid : Nat) (title content : String) (fb : JVal)
    (hT : ¬ pyStrip title.data = [])
    (hC : contentNonEmpty content = true)
    (hA : (get_gemini_assessment gen parse title (mdResult md content)).result = Except.ok fb) :
    (process_and_submit_essay gen parse md true (some sid) title content).rows.map DbRow.rating
      = [persistedRatingOf fb] := by
  simp only [process_and_submit_essay]
  rw [if_neg hT, if_pos hC, hA]
  cases fb with
  | jobj fields =>
      by_cases hk : jhasKey fields "error"
      · simp [save_essay_submission, persistedRatingOf, hk, isinstance_int_float]
      · cases hg : jget fields "overall_rating" with
        | none => simp [save_essay_submission, persistedRatingOf, hk, hg, isinstance_int_float]
        | some v => simp [save_essay_submission, persistedRatingOf, hk, hg]
  | jnull => simp [save_essay_submission, persistedRatingOf, isinstance_int_float]
  | jbool b => simp [save_essay_submission, persistedRatingOf, isinstance_int_float]
  | jnum n => simp [save_essay_submission, persistedRatingOf, isinstance_int_float]
  | jstr s => simp [save_essay_submission, persistedRatingOf, isinstance_int_float]
  | jarr es => simp [save_essay_submission, persistedRatingOf, isinstance_int_float]

/-- C6 witness: a response with integer rating 78 persists rating 78. -/
theorem C6_persisted_rating_witness :
    (¬ pyStrip "T".data = [])
    ∧ contentNonEmpty "<p>Body</p>" = true
    ∧ (process_and_submit_essay (genText jsonR78) parseRating mdId true (some 1) "T"
        "<p>Body</p>").rows.map DbRow.rating = [persistedRatingOf ratingDict]
    ∧ persistedRatingOf ratingDict = some (JVal.jnum 78) :=
  ⟨by decide, by decide,
   C6_persisted_rating (genText jsonR78) parseRating mdId 1 "T" "<p>Body</p>" ratingDict
     (by decide) (by decide) rfl,
   rfl⟩

/-- C9: when the model response parses into a dictionary with no
"error" key and no `overall_rating` value passing the numeric
`isinstance` check (missing key or non-numeric value), the run still
shows the success outcome (lines 517-518), completes normally, and
persists a null rating. -/
theorem C9_missing_rating_outcome_graded
    (gen : Nat → String → Except String String) (parse : List Char → Option JVal)
    (md : String → Except String String) (sid : Nat) (title content : String)
    (fields : List (String × JVal))
    (hT : ¬ pyStrip title.data = [])
    (hC : contentNonEmpty content = true)
    (hA : (get_gemini_assessment gen parse title (mdResult md content)).result
          = Except.ok (JVal.jobj fields))
    (hNoErr : jhasKey fields "error" = false)
    (hNoNum : isinstance_int_float (jget fields "overall_rating") = false) :
    (process_and_submit_essay gen parse md true (some sid) title content).successShown = true
    ∧ (process_and_submit_essay gen parse md true (some sid) title content).rows.map DbRow.rating
        = [none]
    ∧ (process_and_submit_essay gen parse md true (some sid) title content).outcome
        = POutcome.completed := by
  simp only [process_and_submit_essay]
  rw [if_neg hT, if_pos hC, hA]
  refine ⟨?_, ?_, ?_⟩ <;> simp [save_essay_submission, hNoErr, hNoNum]

/-- C9 witness: a response with feedback text but no rating field is
reported as a success and persisted with a null rating. -/
theorem C9_missing_rating_outcome_graded_witness :
    jhasKey fieldsNoRating "error" = false
    ∧ isinstance_int_float (jget fieldsNoRating "overall_rating") = false
    ∧ (process_and_submit_essay (genText jsonNoRating) parseNoRating mdId true (some 1) "T"
        "<p>Body</p>").successShown = true
    ∧ (process_and_submit_essay (genText jsonNoRating) parseNoRating mdId true (some 1) "T"
        "<p>Body</p>").rows.map DbRow.rating = [none]
    ∧ (process_and_submit_essay (genText jsonNoRating) parseNoRating mdId true (some 1) "T"
        "<p>Body</p>").outcome = POutcome.completed :=
  ⟨by decide, by decide,
   (C9_missing_rating_outcome_graded (genText jsonNoRating) parseNoRating mdId 1 "T"
     "<p>Body</p>" fieldsNoRating (by decide) (by decide) rfl (by decide) (by decide)).1,
   (C9_missing_rating_outcome_graded (genText jsonNoRating) parseNoRating mdId 1 "T"
     "<p>Body</p>" fieldsNoRating (by decide) (by decide) rfl (by decide) (by decide)).2.1,
   (C9_missing_rating_outcome_graded (genText jsonNoRating) parseNoRating mdId 1 "T"
     "<p>Body</p>" fieldsNoRating (by decide) (by decide) rfl (by decide) (by decide)).2.2⟩

/-- C7: the extraction step strips a single fenced-code wrapper when
present (with or without the json tag) and then slices between the
first opening brace and the last closing brace and parses that slice;
when no opening brace can be located (for instance a fenced block with
no braces inside), it returns the structured parse-error dictionary
with the (stripped) response text attached, without raising. -/
theorem C7_fence_strip_and_brace_slice (parse : List Char → Option JVal) (b : List Char) :
    ('{' ∉ b → extractJson parse (fenceJson b) = errFormatDict (pyStrip b))
    ∧ (("```json".data).isPrefixOf (fencePlain b) = false → '{' ∉ b →
        extractJson parse (fencePlain b) = errFormatDict (pyStrip b))
    ∧ (∀ i k v, pyFind (pyStrip b) '{' = some i → pyRfind (pyStrip b) '}' = some k →
        parse (pySliceTo (pyStrip b) i (k + 1)) = some v →
        extractJson parse (fenceJson b) = v) := by
  refine ⟨?_, ?_, ?_⟩
  · intro hnb
    rw [extractJson_fenceJson]
    unfold extractCore
    rw [pyFind_eq_none_of_not_mem (fun hm => hnb (mem_of_mem_pyStrip hm))]
  · intro hno hnb
    rw [extractJson_fencePlain _ _ hno]
    unfold extractCore
    rw [pyFind_eq_none_of_not_mem (fun hm => hnb (mem_of_mem_pyStrip hm))]
  · intro i k v hf hr hp
    rw [extractJson_fenceJson]
    unfold extractCore
    simp only [hf, hr, hp]

/-- C7 witness: a json-tagged fence with no braces and an untagged
fence with no braces both give the parse-error dictionary with the
stripped body attached; a json-tagged fence around a JSON object is
stripped, sliced and parsed. -/
theorem C7_fence_strip_and_brace_slice_witness :
    '{' ∉ "result unavailable".data
    ∧ extractJson parseDigit (fenceJson "result unavailable".data)
        = errFormatDict (pyStrip "result unavailable".data)
    ∧ ("```json".data).isPrefixOf (fencePlain "plain text".data) = false
    ∧ extractJson parseDigit (fencePlain "plain text".data)
        = errFormatDict (pyStrip "plain text".data)
    ∧ extractJson parseDigit (fenceJson "\x7b1\x7d".data) = JVal.jnum 1 :=
  ⟨by decide,
   (C7_fence_strip_and_brace_slice parseDigit "result unavailable".data).1 (by decide),
   by decide,
   (C7_fence_strip_and_brace_slice parseDigit "plain text".data).2.1 (by decide) (by decide),
   (C7_fence_strip_and_brace_slice parseDigit "\x7b1\x7d".data).2.2 0 2 (JVal.jnum 1)
     (by decide) (by decide) rfl⟩

/-- C10: a response text (not starting with a fence marker) that
contains an opening brace but no closing brace has `rfind` collapse to
none, so the end index is 0, the slice is empty, parsing it fails, and
the result is the structured decode-error dictionary with the raw text
attached — no exception. -/
theorem C10_unclosed_brace_parse_error (parse : List Char → Option JVal) (t : List Char)
    (hfence : ("```".data).isPrefixOf (pyStrip t) = false)
    (hopen : '{' ∈ t) (hclose : '}' ∉ t)
    (hparse : parse [] = none) :
    pyRfind t '}' = none
    ∧ (∀ i, pySliceTo t i 0 = [])
    ∧ extractJson parse t = errDecodeDict t := by
  have hjson : ("```json".data).isPrefixOf (pyStrip t) = false := by
    cases hp : ("```json".data).isPrefixOf (pyStrip t) with
    | false => rfl
    | true =>
      have h3 : ("```".data).isPrefixOf (pyStrip t) = true := by
        apply isPrefixOf_of_append "```".data "json".data
        rw [show ("```".data ++ "json".data : List Char) = "```json".data from rfl]
        exact hp
      rw [h3] at hfence
      simp at hfence
  have hrf : pyRfind t '}' = none := pyRfind_eq_none_of_not_mem hclose
  obtain ⟨i, hi⟩ := pyFind_isSome_of_mem hopen
  refine ⟨hrf, fun j => by simp [pySliceTo], ?_⟩
  unfold extractJson
  rw [if_neg (by simp [hjson]), if_neg (by simp [hfence])]
  unfold extractCore
  simp only [hi, hrf]
  simp [pySliceTo, hparse]

/-- C10 witness: the text `abc` + open brace + `def` yields the
decode-error dictionary. -/
theorem C10_unclosed_brace_parse_error_witness :
    '{' ∈ "abc\x7bdef".data
    ∧ '}' ∉ "abc\x7bdef".data
    ∧ pyRfind "abc\x7bdef".data '}' = none
    ∧ extractJson parseNone "abc\x7bdef".data = errDecodeDict "abc\x7bdef".data :=
  ⟨by decide, by decide,
   (C10_unclosed_brace_parse_error parseNone "abc\x7bdef".data (by decide) (by decide)
     (by decide) rfl).1,
   (C10_unclosed_brace_parse_error parseNone "abc\x7bdef".data (by decide) (by decide)
     (by decide) rfl).2.2⟩

/-- C8: the prompt builder is a pure deterministic function of the
title and the normalized content, and every built prompt embeds the
five scoring criteria with their fixed weights (grammar 20, relevancy
and cohesion 25, clarity and content development 25, sentence
formation 20, formatting 10), which sum to 100. -/
theorem C8_prompt_deterministic_rubric :
    (∀ t1 c1 t2 c2 : String, t1 = t2 → c1 = c2 → buildPrompt t1 c1 = buildPrompt t2 c2)
    ∧ rubricCriteria.length = 5
    ∧ (rubricCriteria.map (fun p => p.2)).sum = 100
    ∧ (∀ title essay : String, ∀ p ∈ rubricCriteria,
        listContains (critNeedle p).data (buildPrompt title essay).data = true) := by
  refine ⟨?_, rfl, by decide, ?_⟩
  · intro t1 c1 t2 c2 h1 h2
    rw [h1, h2]
  · intro title essay p hp
    have hdata : (buildPrompt title essay).data
        = promptA.data ++ (title.data ++ (promptB.data ++ (essay.data ++ promptC.data))) := by
      simp [buildPrompt, String.data_append, List.append_assoc]
    rw [hdata]
    apply listContains_append_left
    apply listContains_append_left
    apply listContains_append_left
    apply listContains_append_left
    simp only [rubricCriteria, List.mem_cons, List.not_mem_nil, or_false] at hp
    rcases hp with rfl | rfl | rfl | rfl | rfl <;> decide

/-- C8 witness: the theorem applied at a concrete title and content. -/
theorem C8_prompt_deterministic_rubric_witness :
    buildPrompt "Climate Change" "Essay body" = buildPrompt "Climate Change" "Essay body"
    ∧ ("Grammar", 20) ∈ rubricCriteria
    ∧ listContains (critNeedle ("Grammar", 20)).data
        (buildPrompt "Climate Change" "Essay body").data = true :=
  ⟨C8_prompt_deterministic_rubric.1 "Climate Change" "Essay body" "Climate Change" "Essay body"
     rfl rfl,
   by decide,
   C8_prompt_deterministic_rubric.2.2.2 "Climate Change" "Essay body" ("Grammar", 20)
     (by decide)⟩
